import Mathlib

/-!
Verification development for the Witness Angel client background service
(`src/waclient/background_service.py`).

The service is shallowly embedded as a pure state machine:

* `BackgroundServer` carries the fields of the Python `BackgroundServer`
  object (`recording_toolchain`, `status_change_in_progress`,
  `termination_event`) together with the single-worker task queue of the
  `ThreadPoolExecutor`, the list of observable actions performed so far
  (`log`), whether the OSC transport is still serving inbound messages
  (`serving`), the filesystem view used by container decryption (`fs`),
  and two ghost counters instrumenting toolchain allocation.
* Outcomes of external collaborators (`get_encryption_conf`,
  `build_recording_toolchain`, `start_recording_toolchain`,
  `stop_recording_toolchain`, config-file parsing, container decryption)
  are supplied as oracles carried by the submitted tasks, since those
  collaborators are out of scope for the control core.
* Python exceptions are modelled with `Except PyError`; a `try/finally`
  block becomes an explicit sequencing where the finally-part runs on
  both the `ok` and `error` results of the body.
* Inbound OSC requests and worker activity are interleaved as a trace of
  `Ev` events folded over the state; the dispatch context only mutates
  state via the handler bodies, the worker only via `run_task`, matching
  the single-worker serialization of the source.
-/

deriving instance DecidableEq for Except

namespace WAClient

/-- Primitive OSC payload values used by the service (booleans and strings). -/
inductive Val where
  | boolVal : Bool → Val
  | strVal : String → Val
  deriving DecidableEq, Repr

/-- Python exception classes that the service's code distinguishes:
`FileNotFoundError`, `configparser.Error`, and any other exception. -/
inductive PyError where
  | fileNotFound
  | configParserError
  | genericError
  deriving DecidableEq, Repr

/-- Observable actions of the service, recorded in order of occurrence. -/
inductive Act where
  /-- Models `self._send_message(address, *values)` — an OSC message to the app. -/
  | sent (address : String) (payload : List Val)
  /-- an error-level log record (`logger.error` or the task-boundary catch). -/
  | logError (msg : String)
  /-- Records that `build_recording_toolchain` returned a toolchain object. -/
  | toolchainBuilt
  /-- Records that `start_recording_toolchain` ran to completion. -/
  | toolchainStarted
  /-- Records that `stop_recording_toolchain` ran to completion. -/
  | toolchainStopped
  /-- Records `osc.stop_all()` — the transport stops serving inbound messages. -/
  | stopServing
  /-- Records `self._termination_event.set()`. -/
  | setTermination
  deriving DecidableEq, Repr

/-- The recording toolchain handle; the control core only observes
`sensors_manager.is_running` on it. -/
structure Toolchain where
  is_running : Bool
  deriving DecidableEq, Repr

/-- Oracle fixing the outcomes of the external collaborators invoked by one
run of `_offloaded_start_recording`: whether `get_encryption_conf(env)`
returns normally, whether the config file exists, whether parsing it raises
`configparser.Error`, whether `build_recording_toolchain` raises, what object
(or `None`) it would return, and whether `start_recording_toolchain` returns
normally. -/
structure StartOracle where
  enc_conf_ok : Bool
  file_exists : Bool
  parse_ok : Bool
  build_raises : Bool
  build_product : Option Toolchain
  start_ok : Bool
  deriving DecidableEq, Repr

/-- Directory contents: an association list from file name to content. -/
abbrev DirContents := List (String × String)

/-- Filesystem view used by container decryption: an association list from
directory path to its contents. -/
abbrev Fs := List (String × DirContents)

/-- A unit of work submitted to the single-worker `THREAD_POOL_EXECUTOR`,
together with the oracle for the external calls it will make. For a
decryption task, `archive` is the decrypted tar archive's entry list when
loading + decryption + opening succeed, `none` when any of them raises. -/
inductive SrvTask where
  | start (o : StartOracle)
  | stop (stop_ok : Bool)
  | decrypt (container_filepath : String) (archive : Option DirContents)
  | switchDaemonize (value : Bool)
  deriving DecidableEq, Repr

/-- Outcome of a task as reported on its future by the task-boundary wrapper. -/
inductive TaskOutcome where
  | success
  | failure
  deriving DecidableEq, Repr

/-- State of the `BackgroundServer` object together with its execution
context. `toolchain_builds` and `toolchain_overwrites` are ghost counters:
the number of toolchain objects ever produced by `build_recording_toolchain`,
and the number of times `self._recording_toolchain` was assigned a new
toolchain object while already holding one (a second live instance). -/
structure BackgroundServer where
  recording_toolchain : Option Toolchain
  status_change_in_progress : Bool
  termination_event : Bool
  serving : Bool
  queue : List SrvTask
  log : List Act
  fs : Fs
  toolchain_builds : Nat
  toolchain_overwrites : Nat
  deriving DecidableEq, Repr

/-- Property `BackgroundServer.is_recording`:
`bool(self._recording_toolchain and self._recording_toolchain["sensors_manager"].is_running)`. -/
def is_recording (s : BackgroundServer) : Bool :=
  match s.recording_toolchain with
  | none => false
  | some t => t.is_running

/-- Method `self._send_message(address, *values)`; the OSC send itself is external,
we record the attempt. -/
def send_message (address : String) (values : List Val) (s : BackgroundServer) :
    BackgroundServer :=
  { s with log := s.log ++ [Act.sent address values] }

/-- The ternary value computed by `broadcast_recording_state`: the special
value `""` if a status change is in progress, else the boolean `is_recording`. -/
def broadcast_value (s : BackgroundServer) : Val :=
  if s.status_change_in_progress then Val.strVal ""
  else Val.boolVal (is_recording s)

/-- Handler `BackgroundServer.broadcast_recording_state`. -/
def broadcast_recording_state (s : BackgroundServer) : BackgroundServer :=
  send_message "/receive_recording_state" [broadcast_value s] s

/-- Method `BackgroundServer._load_config`: raises `FileNotFoundError` when the file
is missing (not caught by the `except ConfigParserError` clause, hence not
logged there); a parse failure is logged at error level and re-raised. -/
def load_config (file_exists_flag : Bool) (parse_ok : Bool) (s : BackgroundServer) :
    Except PyError Unit × BackgroundServer :=
  if file_exists_flag = false then
    (Except.error PyError.fileNotFound, s)
  else if parse_ok = false then
    (Except.error PyError.configParserError,
     { s with log := s.log ++ [Act.logError "config"] })
  else
    (Except.ok (), s)

/-- Assignment `self._recording_toolchain = build_recording_toolchain(...)` — the one
assignment of a freshly built toolchain; increments the ghost counters. -/
def assign_toolchain (tc : Option Toolchain) (s : BackgroundServer) : BackgroundServer :=
  { s with
      recording_toolchain := tc,
      toolchain_builds := s.toolchain_builds + (if tc.isSome then 1 else 0),
      toolchain_overwrites := s.toolchain_overwrites +
        (if s.recording_toolchain.isSome && tc.isSome then 1 else 0),
      log := s.log ++ (if tc.isSome then [Act.toolchainBuilt] else []) }

/-- Body of the `try:` block of `_offloaded_start_recording` (the Android
foreground-notification branch is a no-op off Android). -/
def offloaded_start_recording_try (o : StartOracle) (s : BackgroundServer) :
    Except PyError Unit × BackgroundServer :=
  if o.enc_conf_ok = false then (Except.error PyError.genericError, s)
  else if is_recording s then (Except.ok (), s)
  else
    let start_step := fun (s1 : BackgroundServer) =>
      match s1.recording_toolchain with
      | none => (Except.ok (), s1)
      | some _ =>
        if o.start_ok then
          (Except.ok (), { s1 with
              recording_toolchain := some { is_running := true },
              log := s1.log ++ [Act.toolchainStarted] })
        else (Except.error PyError.genericError, s1)
    match s.recording_toolchain with
    | some _ => start_step s
    | none =>
      match load_config o.file_exists o.parse_ok s with
      | (Except.error e, s1) => (Except.error e, s1)
      | (Except.ok _, s1) =>
        if o.build_raises then (Except.error PyError.genericError, s1)
        else start_step (assign_toolchain o.build_product s1)

/-- Task body `BackgroundServer._offloaded_start_recording`: the `try` body followed by
the `finally` block (clear `_status_change_in_progress`, broadcast), run on
every exit path; the body's exception, if any, then propagates. -/
def offloaded_start_recording (o : StartOracle) (s : BackgroundServer) :
    Except PyError Unit × BackgroundServer :=
  let r := offloaded_start_recording_try o s
  let s1 := { r.2 with status_change_in_progress := false }
  (r.1, broadcast_recording_state s1)

/-- Body of the `try:` block of `_offloaded_stop_recording` (the Android
`stopForeground` branch is a no-op off Android). -/
def offloaded_stop_recording_try (stop_ok : Bool) (s : BackgroundServer) :
    Except PyError Unit × BackgroundServer :=
  if is_recording s = false then (Except.ok (), s)
  else if stop_ok then
    (Except.ok (), { s with log := s.log ++ [Act.toolchainStopped] })
  else (Except.error PyError.genericError, s)

/-- Task body `BackgroundServer._offloaded_stop_recording`: the `try` body followed by
the `finally` block (clear the toolchain reference, clear
`_status_change_in_progress`, broadcast), run on every exit path. -/
def offloaded_stop_recording (stop_ok : Bool) (s : BackgroundServer) :
    Except PyError Unit × BackgroundServer :=
  let r := offloaded_stop_recording_try stop_ok s
  let s1 := { r.2 with recording_toolchain := none, status_change_in_progress := false }
  (r.1, broadcast_recording_state s1)

/-- Python `os.path.basename` for POSIX paths: everything after the last slash. -/
def basename (p : String) : String :=
  String.mk (p.data.foldl (fun acc c => if c = '/' then [] else acc ++ [c]) [])

/-- Modelled from the spec: `EXTERNAL_DATA_EXPORTS_DIR` comes from
`waclient.common_config`, which is not part of the sources; it is the export
directory under which decrypted containers are unpacked. Its concrete value
is irrelevant to the control core. -/
def EXTERNAL_DATA_EXPORTS_DIR : String := "EXTERNAL_DATA_EXPORTS_DIR"

/-- Look up a directory in the filesystem view. -/
def fs_lookup (d : String) : Fs → Option DirContents
  | [] => none
  | (d1, c) :: rest => if d1 = d then some c else fs_lookup d rest

/-- Models `target_directory.mkdir(exist_ok=True)`. -/
def mkdir_exist_ok (d : String) (fs : Fs) : Fs :=
  match fs_lookup d fs with
  | some _ => fs
  | none => fs ++ [(d, [])]

/-- Apply a function to the contents of one directory. -/
def fs_update (d : String) (f : DirContents → DirContents) : Fs → Fs
  | [] => []
  | (d1, c) :: rest =>
    if d1 = d then (d1, f c) :: rest else (d1, c) :: fs_update d f rest

/-- Write one file into a directory, overwriting a colliding name. -/
def write_file (name content : String) : DirContents → DirContents
  | [] => [(name, content)]
  | (n, c) :: rest =>
    if n = name then (name, content) :: rest else (n, c) :: write_file name content rest

/-- Models `tarfile_obj.extractall(target_directory)`: write every archive entry,
in order, overwriting colliding files. -/
def extractall (entries : DirContents) (dir : DirContents) : DirContents :=
  entries.foldl (fun acc e => write_file e.1 e.2 acc) dir

/-- Look up a file name in directory contents. -/
def files_lookup (name : String) : DirContents → Option String
  | [] => none
  | (n, c) :: rest => if n = name then some c else files_lookup name rest

/-- The export destination directory for a container path. -/
def target_directory_for (container_filepath : String) : String :=
  EXTERNAL_DATA_EXPORTS_DIR ++ "/" ++ basename container_filepath

/-- Task body `BackgroundServer._offloaded_attempt_container_decryption`, acting on the
filesystem view: resolve the destination, create it if absent, then (if
loading, decrypting and opening the archive succeed, i.e. `archive = some
entries`) unpack with overwrite; any failure aborts after the `mkdir`, with
no cleanup. -/
def offloaded_attempt_container_decryption (container_filepath : String)
    (archive : Option DirContents) (fs : Fs) : Except PyError Unit × Fs :=
  let target_directory := target_directory_for container_filepath
  let fs1 := mkdir_exist_ok target_directory fs
  match archive with
  | none => (Except.error PyError.genericError, fs1)
  | some entries => (Except.ok (), fs_update target_directory (extractall entries) fs1)

/-- The decryption task run against the server state's filesystem view. -/
def offloaded_attempt_container_decryption_srv (container_filepath : String)
    (archive : Option DirContents) (s : BackgroundServer) :
    Except PyError Unit × BackgroundServer :=
  let r := offloaded_attempt_container_decryption container_filepath archive s.fs
  (r.1, { s with fs := r.2 })

/-- Modelled from the spec: `safe_catch_unhandled_exception`
(`waclient/utilities/misc.py`, not part of the sources) wraps every
externally invocable operation so that an unhandled failure inside it is
caught, logged, and reported as a failed task result rather than
terminating the worker or the dispatch context. -/
def safe_catch_unhandled_exception :
    Except PyError Unit × BackgroundServer → TaskOutcome × BackgroundServer
  | (Except.ok _, s) => (TaskOutcome.success, s)
  | (Except.error _, s) =>
    (TaskOutcome.failure, { s with log := s.log ++ [Act.logError "unhandled"] })

/-- Execute one task on the worker, yielding its reported outcome. -/
def run_task_outcome : SrvTask → BackgroundServer → TaskOutcome × BackgroundServer
  | SrvTask.start o, s => safe_catch_unhandled_exception (offloaded_start_recording o s)
  | SrvTask.stop ok, s => safe_catch_unhandled_exception (offloaded_stop_recording ok s)
  | SrvTask.decrypt p a, s =>
    safe_catch_unhandled_exception (offloaded_attempt_container_decryption_srv p a s)
  | SrvTask.switchDaemonize _, s => (TaskOutcome.success, s)

/-- Execute one task, discarding the outcome (fire-and-forget submission). -/
def run_task (t : SrvTask) (s : BackgroundServer) : BackgroundServer :=
  (run_task_outcome t s).2

/-- Handler `start_recording` (`/start_recording`): sets
`_status_change_in_progress` and submits `_offloaded_start_recording`. -/
def start_recording (o : StartOracle) (s : BackgroundServer) : BackgroundServer :=
  { s with status_change_in_progress := true, queue := s.queue ++ [SrvTask.start o] }

/-- Handler `stop_recording` (`/stop_recording`): sets
`_status_change_in_progress` and submits `_offloaded_stop_recording`. -/
def stop_recording (stop_ok : Bool) (s : BackgroundServer) : BackgroundServer :=
  { s with status_change_in_progress := true, queue := s.queue ++ [SrvTask.stop stop_ok] }

/-- Handler `ping` (`/ping`). -/
def ping (s : BackgroundServer) : BackgroundServer :=
  send_message "/log_output" [Val.strVal "Pong"] s

/-- Handler `attempt_container_decryption` (`/attempt_container_decryption`):
submits the offloaded decryption. -/
def attempt_container_decryption (container_filepath : String)
    (archive : Option DirContents) (s : BackgroundServer) : BackgroundServer :=
  { s with queue := s.queue ++ [SrvTask.decrypt container_filepath archive] }

/-- Handler `switch_daemonize_service` (`/switch_daemonize_service`). -/
def switch_daemonize_service (value : Bool) (s : BackgroundServer) : BackgroundServer :=
  { s with queue := s.queue ++ [SrvTask.switchDaemonize value] }

/-- Run a list of tasks in order, threading the reported outcome of the most
recently completed one (used for the task that `stop_server` waits on). -/
def run_tasks (ts : List SrvTask) (s : BackgroundServer) (last : TaskOutcome) :
    TaskOutcome × BackgroundServer :=
  match ts with
  | [] => (last, s)
  | t :: rest =>
    let r := run_task_outcome t s
    run_tasks rest r.2 r.1

/-- Run at most `n` queued tasks (the work the worker completes before a
bounded wait times out). -/
def run_first : Nat → BackgroundServer → BackgroundServer
  | 0, s => s
  | n + 1, s =>
    match s.queue with
    | [] => s
    | t :: rest => run_first n (run_task t { s with queue := rest })

/-- The tail of `stop_server`: `osc.stop_all()` then
`self._termination_event.set()`. -/
def finish_shutdown (s : BackgroundServer) : BackgroundServer :=
  let s1 := { s with serving := false, log := s.log ++ [Act.stopServing] }
  { s1 with termination_event := true, log := s1.log ++ [Act.setTermination] }

/-- Handler `stop_server` (`/stop_server`). While recording, it submits a
stop task and blocks on its future with `result(timeout=30)`: the worker
then runs the queue up to that task. `timeout_tasks = some n` means the
timeout elapsed after the worker completed only `n` tasks: the raised
`TimeoutError` is swallowed by the task-boundary wrapper, so neither
`osc.stop_all()` nor the termination signal happens. Likewise, per the
spec-modelled wrapper, a failed stop task re-raises from `result()` and
aborts the handler before `osc.stop_all()`. -/
def stop_server (stop_ok : Bool) (timeout_tasks : Option Nat) (s : BackgroundServer) :
    BackgroundServer :=
  if is_recording s then
    let s1 := stop_recording stop_ok s
    match timeout_tasks with
    | none =>
      let r := run_tasks s1.queue { s1 with queue := [] } TaskOutcome.success
      match r.1 with
      | TaskOutcome.success => finish_shutdown r.2
      | TaskOutcome.failure => r.2
    | some n => run_first n s1
  else
    finish_shutdown s

/-- Method `BackgroundServer.join`: `self._termination_event.wait()` returns exactly
when the termination event is set. -/
def join_unblocked (s : BackgroundServer) : Bool :=
  s.termination_event

/-- One interleaving event: an inbound OSC request dispatched by the
transport, or the worker picking up the next queued task. Requests carry the
oracles for the external calls their eventual tasks will make. -/
inductive Ev where
  | reqPing
  | reqStartRecording (o : StartOracle)
  | reqStopRecording (stop_ok : Bool)
  | reqBroadcastRecordingState
  | reqAttemptContainerDecryption (container_filepath : String) (archive : Option DirContents)
  | reqSwitchDaemonize (value : Bool)
  | reqStopServer (stop_ok : Bool) (timeout_tasks : Option Nat)
  | workerStep
  deriving DecidableEq, Repr

/-- Dispatch one inbound request to its registered handler. -/
def dispatch : Ev → BackgroundServer → BackgroundServer
  | Ev.reqPing, s => ping s
  | Ev.reqStartRecording o, s => start_recording o s
  | Ev.reqStopRecording ok, s => stop_recording ok s
  | Ev.reqBroadcastRecordingState, s => broadcast_recording_state s
  | Ev.reqAttemptContainerDecryption p a, s => attempt_container_decryption p a s
  | Ev.reqSwitchDaemonize v, s => switch_daemonize_service v s
  | Ev.reqStopServer ok tm, s => stop_server ok tm s
  | Ev.workerStep, s => s

/-- The worker picks up and runs the next queued task, if any. -/
def worker_step (s : BackgroundServer) : BackgroundServer :=
  match s.queue with
  | [] => s
  | t :: rest => run_task t { s with queue := rest }

/-- Process one event: inbound requests are only dispatched while the
transport is serving (`osc.stop_all()` has not run); the worker drains the
queue regardless. -/
def handle_event (e : Ev) (s : BackgroundServer) : BackgroundServer :=
  match e with
  | Ev.workerStep => worker_step s
  | _ => if s.serving then dispatch e s else s

/-- Fold a trace of events over a state. -/
def run (s : BackgroundServer) (tr : List Ev) : BackgroundServer :=
  tr.foldl (fun st e => handle_event e st) s

/-- The server state right after `BackgroundServer.__init__`: no toolchain,
transport serving, a daemonize task submitted from the persisted config, and
— when the WIP recording marker file exists — `start_recording()` already
called (flag set, start task queued) to auto-resume. -/
def initial_server (daemonize : Bool) (wip_recording_marker : Bool) (o : StartOracle) :
    BackgroundServer :=
  { recording_toolchain := none
    status_change_in_progress := wip_recording_marker
    termination_event := false
    serving := true
    queue := [SrvTask.switchDaemonize daemonize] ++
      (if wip_recording_marker then [SrvTask.start o] else [])
    log := []
    fs := []
    toolchain_builds := 0
    toolchain_overwrites := 0 }

/-- A start oracle on which every external call succeeds and
`build_recording_toolchain` produces a (not yet running) toolchain. -/
def o_ok : StartOracle :=
  { enc_conf_ok := true, file_exists := true, parse_ok := true,
    build_raises := false, build_product := some { is_running := false }, start_ok := true }

/-- Whether processing this event in this state completes (or may complete,
for the shutdown wait, which runs queued tasks) a start-recording or
stop-recording task: a worker step whose picked-up task is a start/stop
task, or a `/stop_server` request. Worker steps that complete other queued
tasks (daemonize, decryption) or find the queue empty do not qualify. -/
def completes_start_stop (s : BackgroundServer) : Ev → Bool
  | Ev.workerStep =>
    match s.queue with
    | SrvTask.start _ :: _ => true
    | SrvTask.stop _ :: _ => true
    | _ => false
  | Ev.reqStopServer _ _ => true
  | _ => false

/-- No event of the trace, walked from this state, completes a start/stop
task (nor is a shutdown wait that could run one). -/
def no_start_stop_completion (s : BackgroundServer) : List Ev → Bool
  | [] => true
  | e :: rest =>
    !completes_start_stop s e && no_start_stop_completion (handle_event e s) rest

/-- Whether an action is the setting of the termination signal. -/
def is_set_termination : Act → Bool
  | Act.setTermination => true
  | _ => false

/-- How many times the termination signal was set in an action log. -/
def count_set_termination (l : List Act) : Nat :=
  l.countP is_set_termination

/-- The one-shot discipline of the termination signal: the signal has been
set exactly as many times as its current value records (zero or one), and it
is never set while the transport is still serving. -/
def termination_once (s : BackgroundServer) : Prop :=
  count_set_termination s.log = (if s.termination_event then 1 else 0)
  ∧ (s.serving = true → s.termination_event = false)

/-- The value associated with the last occurrence of a name in an entry
list (the content `extractall` leaves for that name). -/
def last_assoc (name : String) : DirContents → Option String
  | [] => none
  | e :: rest =>
    match last_assoc name rest with
    | some v => some v
    | none => if e.1 = name then some e.2 else none

/-- A server holding a running toolchain, queue drained (used as a concrete
instance for the theorems below). -/
def recording_server : BackgroundServer :=
  { recording_toolchain := some { is_running := true }
    status_change_in_progress := false
    termination_event := false
    serving := true
    queue := []
    log := []
    fs := []
    toolchain_builds := 1
    toolchain_overwrites := 0 }

/-- A server holding a toolchain whose sensors are not running, with a
status change pending (used as a concrete instance for the theorems below). -/
def stale_toolchain_server : BackgroundServer :=
  { recording_toolchain := some { is_running := false }
    status_change_in_progress := true
    termination_event := false
    serving := true
    queue := []
    log := []
    fs := []
    toolchain_builds := 1
    toolchain_overwrites := 0 }

/-! ## Basic lemmas -/

theorem is_recording_eq_true (s : BackgroundServer) :
    is_recording s = true ↔ ∃ t, s.recording_toolchain = some t ∧ t.is_running = true := by
  cases h : s.recording_toolchain with
  | none => simp [is_recording, h]
  | some t => simp [is_recording, h]

theorem is_recording_eq_false (s : BackgroundServer) (h : s.recording_toolchain = none) :
    is_recording s = false := by
  simp [is_recording, h]

/-! ## Claim theorems: the broadcast protocol and the lifecycle handlers -/

/-- C4: `broadcast_recording_state` computes the ternary value — the
empty-string marker if `_status_change_in_progress` is true, otherwise the
boolean `is_recording` (toolchain present and running) — and sends it as a
single-element payload on `/receive_recording_state`. -/
theorem broadcast_recording_state_ternary_payload (s : BackgroundServer) :
    (broadcast_recording_state s).log = s.log ++
      [Act.sent "/receive_recording_state"
        [if s.status_change_in_progress then Val.strVal ""
         else Val.boolVal (Option.elim s.recording_toolchain false Toolchain.is_running)]] := by
  cases h : s.recording_toolchain with
  | none =>
    simp [broadcast_recording_state, send_message, broadcast_value, is_recording, h]
  | some t =>
    simp [broadcast_recording_state, send_message, broadcast_value, is_recording, h]

/-- C5: both `start_recording` and `stop_recording` set
`_status_change_in_progress` synchronously in the dispatch context: the state
returned by the handler already has the flag set and the offloaded task
appended to the queue, with every other field (toolchain, log, …) untouched —
the task has not begun executing. -/
theorem submission_sets_status_change_in_progress (s : BackgroundServer)
    (o : StartOracle) (b : Bool) (hserv : s.serving = true) :
    handle_event (Ev.reqStartRecording o) s =
      { s with
          status_change_in_progress := true
          queue := s.queue ++ [SrvTask.start o] }
    ∧ handle_event (Ev.reqStopRecording b) s =
      { s with
          status_change_in_progress := true
          queue := s.queue ++ [SrvTask.stop b] } := by
  constructor <;> simp [handle_event, dispatch, start_recording, stop_recording, hserv]

theorem submission_sets_status_change_in_progress_witness :
    handle_event (Ev.reqStartRecording o_ok) recording_server =
      { recording_server with
          status_change_in_progress := true
          queue := [SrvTask.start o_ok] }
    ∧ handle_event (Ev.reqStopRecording true) recording_server =
      { recording_server with
          status_change_in_progress := true
          queue := [SrvTask.stop true] } :=
  submission_sets_status_change_in_progress recording_server o_ok true rfl

/-- C6: after the offloaded stop task runs on a recording service — whether
`stop_recording_toolchain` succeeded (`b = true`) or raised (`b = false`) —
the toolchain reference is cleared, `_status_change_in_progress` is cleared,
and exactly one status broadcast is sent. -/
theorem offloaded_stop_recording_cleanup (s : BackgroundServer) (b : Bool)
    (h : is_recording s = true) :
    (offloaded_stop_recording b s).2.recording_toolchain = none
    ∧ (offloaded_stop_recording b s).2.status_change_in_progress = false
    ∧ (offloaded_stop_recording b s).2.log =
        s.log ++ (if b then [Act.toolchainStopped] else [])
          ++ [Act.sent "/receive_recording_state" [Val.boolVal false]] := by
  cases b <;>
    simp [offloaded_stop_recording, offloaded_stop_recording_try, h,
      broadcast_recording_state, broadcast_value, send_message] <;>
    simp [is_recording]

theorem offloaded_stop_recording_cleanup_witness :
    (offloaded_stop_recording false recording_server).2.recording_toolchain = none
    ∧ (offloaded_stop_recording false recording_server).2.status_change_in_progress = false
    ∧ (offloaded_stop_recording false recording_server).2.log =
        [Act.sent "/receive_recording_state" [Val.boolVal false]] := by
  have h := offloaded_stop_recording_cleanup recording_server false (by decide)
  simpa using h

/-- C10: when the offloaded stop task runs while the service is not
recording — including when a toolchain reference is held but its sensors are
not running — the early-return path still executes the `finally` cleanup:
the toolchain reference is cleared, `_status_change_in_progress` is set to
false, one status broadcast is emitted, and nothing is stopped or raised. -/
theorem offloaded_stop_recording_noop_still_cleans_up (s : BackgroundServer) (b : Bool)
    (h : is_recording s = false) :
    offloaded_stop_recording b s =
      (Except.ok (), { s with
          recording_toolchain := none
          status_change_in_progress := false
          log := s.log ++ [Act.sent "/receive_recording_state" [Val.boolVal false]] }) := by
  simp only [offloaded_stop_recording, offloaded_stop_recording_try, h,
    broadcast_recording_state, broadcast_value, send_message]
  simp [is_recording]

theorem offloaded_stop_recording_noop_witness :
    offloaded_stop_recording true stale_toolchain_server =
      (Except.ok (), { stale_toolchain_server with
          recording_toolchain := none
          status_change_in_progress := false
          log := [Act.sent "/receive_recording_state" [Val.boolVal false]] }) :=
  offloaded_stop_recording_noop_still_cleans_up stale_toolchain_server true (by decide)

/-- C7: in the offloaded start task, when `build_recording_toolchain`
produces no object (cancelled by configuration) and the external calls
before it succeed, the task ends without raising, no toolchain is started or
held, and the `finally` block leaves the state idle: flag cleared and one
broadcast (of `false`) issued. -/
theorem offloaded_start_recording_build_cancelled (s : BackgroundServer) (o : StartOracle)
    (h1 : s.recording_toolchain = none)
    (h2 : o.enc_conf_ok = true) (h3 : o.file_exists = true) (h4 : o.parse_ok = true)
    (h5 : o.build_raises = false) (h6 : o.build_product = none) :
    offloaded_start_recording o s =
      (Except.ok (), { s with
          status_change_in_progress := false
          log := s.log ++ [Act.sent "/receive_recording_state" [Val.boolVal false]] }) := by
  simp [offloaded_start_recording, offloaded_start_recording_try, h1, h2, h3, h4, h5, h6,
    load_config, assign_toolchain, broadcast_recording_state, broadcast_value,
    send_message, is_recording]

theorem offloaded_start_recording_build_cancelled_witness :
    offloaded_start_recording { o_ok with build_product := none }
        (initial_server false false o_ok) =
      (Except.ok (), { initial_server false false o_ok with
          status_change_in_progress := false
          log := [Act.sent "/receive_recording_state" [Val.boolVal false]] }) :=
  offloaded_start_recording_build_cancelled (initial_server false false o_ok)
    { o_ok with build_product := none } rfl rfl rfl rfl rfl rfl

/-- C8: a configuration error — missing or corrupt config file — makes
`_load_config` raise to its caller, and when the loading runs inside an
offloaded task the failure is caught at the task boundary, logged, and
reported as a failed task outcome rather than silently ignored. -/
theorem config_error_surfaces_and_fails_task (s : BackgroundServer) (o : StartOracle)
    (h1 : s.recording_toolchain = none) (h2 : o.enc_conf_ok = true)
    (h3 : o.file_exists = false ∨ o.parse_ok = false) :
    (∃ e, (load_config o.file_exists o.parse_ok s).1 = Except.error e)
    ∧ (run_task_outcome (SrvTask.start o) s).1 = TaskOutcome.failure
    ∧ Act.logError "unhandled" ∈ (run_task_outcome (SrvTask.start o) s).2.log := by
  cases hfe : o.file_exists <;> cases hpo : o.parse_ok <;>
    simp_all [load_config, run_task_outcome, offloaded_start_recording,
      offloaded_start_recording_try, safe_catch_unhandled_exception,
      broadcast_recording_state, broadcast_value, send_message, is_recording]

theorem config_error_surfaces_and_fails_task_witness :
    (∃ e, (load_config false true (initial_server false false o_ok)).1 = Except.error e)
    ∧ (run_task_outcome (SrvTask.start { o_ok with file_exists := false })
        (initial_server false false o_ok)).1 = TaskOutcome.failure
    ∧ Act.logError "unhandled" ∈ (run_task_outcome
        (SrvTask.start { o_ok with file_exists := false })
        (initial_server false false o_ok)).2.log :=
  config_error_surfaces_and_fails_task (initial_server false false o_ok)
    { o_ok with file_exists := false } rfl rfl (Or.inl rfl)

/-! ## Lemmas on the filesystem view, for container decryption -/

theorem files_lookup_write_file_self (name content : String) (c : DirContents) :
    files_lookup name (write_file name content c) = some content := by
  induction c with
  | nil => simp [write_file, files_lookup]
  | cons e rest ih =>
    obtain ⟨n, v⟩ := e
    by_cases h : n = name
    · simp [write_file, h, files_lookup]
    · simp [write_file, h, files_lookup, ih]

theorem files_lookup_write_file_other (k name content : String) (h : k ≠ name)
    (c : DirContents) : files_lookup k (write_file name content c) = files_lookup k c := by
  induction c with
  | nil => simp [write_file, files_lookup, Ne.symm h]
  | cons e rest ih =>
    obtain ⟨n, v⟩ := e
    by_cases hn : n = name
    · simp [write_file, hn, files_lookup, Ne.symm h]
    · simp [write_file, hn, files_lookup, ih]

theorem files_lookup_extractall (name : String) (a c : DirContents) :
    files_lookup name (extractall a c) =
      match last_assoc name a with
      | some v => some v
      | none => files_lookup name c := by
  induction a generalizing c with
  | nil => simp [extractall, last_assoc]
  | cons e rest ih =>
    obtain ⟨k, v⟩ := e
    have hstep : extractall ((k, v) :: rest) c = extractall rest (write_file k v c) := rfl
    rw [hstep, ih]
    cases hl : last_assoc name rest with
    | some w => simp [last_assoc, hl]
    | none =>
      by_cases hk : k = name
      · subst hk
        simp [last_assoc, hl, files_lookup_write_file_self]
      · simp [last_assoc, hl, hk, files_lookup_write_file_other name k v (Ne.symm hk)]

theorem extractall_idempotent_lookup (name : String) (a c : DirContents) :
    files_lookup name (extractall a (extractall a c)) =
      files_lookup name (extractall a c) := by
  cases h : last_assoc name a <;> simp [files_lookup_extractall, h]

theorem fs_lookup_append_self (d : String) (fs : Fs) (c : DirContents)
    (h : fs_lookup d fs = none) : fs_lookup d (fs ++ [(d, c)]) = some c := by
  induction fs with
  | nil => simp [fs_lookup]
  | cons e rest ih =>
    obtain ⟨d1, c1⟩ := e
    by_cases hd : d1 = d
    · simp [fs_lookup, hd] at h
    · simp [fs_lookup, hd] at h ⊢
      exact ih h

theorem fs_lookup_append_other (d' d : String) (fs : Fs) (c : DirContents)
    (h : d' ≠ d) : fs_lookup d' (fs ++ [(d, c)]) = fs_lookup d' fs := by
  induction fs with
  | nil => simp [fs_lookup, Ne.symm h]
  | cons e rest ih =>
    obtain ⟨d1, c1⟩ := e
    by_cases hd : d1 = d'
    · simp [fs_lookup, hd]
    · simp [fs_lookup, hd, ih]

theorem mkdir_lookup_self (d : String) (fs : Fs) :
    (fs_lookup d (mkdir_exist_ok d fs)).isSome = true := by
  cases h : fs_lookup d fs with
  | some c => simp [mkdir_exist_ok, h]
  | none => simp [mkdir_exist_ok, h, fs_lookup_append_self d fs [] h]

theorem mkdir_eq_of_isSome (d : String) (fs : Fs)
    (h : (fs_lookup d fs).isSome = true) : mkdir_exist_ok d fs = fs := by
  cases hl : fs_lookup d fs with
  | some c => simp [mkdir_exist_ok, hl]
  | none => rw [hl] at h; simp at h

theorem fs_lookup_update_self (d : String) (f : DirContents → DirContents) (fs : Fs) :
    fs_lookup d (fs_update d f fs) = (fs_lookup d fs).map f := by
  induction fs with
  | nil => simp [fs_update, fs_lookup]
  | cons e rest ih =>
    obtain ⟨d1, c1⟩ := e
    by_cases hd : d1 = d
    · simp [fs_update, hd, fs_lookup]
    · simp [fs_update, hd, fs_lookup, ih]

theorem fs_lookup_update_other (d' d : String) (f : DirContents → DirContents) (fs : Fs)
    (h : d' ≠ d) : fs_lookup d' (fs_update d f fs) = fs_lookup d' fs := by
  induction fs with
  | nil => simp [fs_update, fs_lookup]
  | cons e rest ih =>
    obtain ⟨d1, c1⟩ := e
    by_cases hd : d1 = d
    · subst hd
      simp [fs_update, fs_lookup, Ne.symm h]
    · by_cases hd' : d1 = d'
      · simp [fs_update, hd, fs_lookup, hd', h]
      · simp [fs_update, hd, fs_lookup, hd', ih]

/-- C9: `attemptContainerDecryption` run twice on the same container path
(with the container decrypting to the same archive, it being external and
deterministic) is idempotent: the second run succeeds again, the destination
directory named after the container exists after either run, and every
directory of the filesystem — the destination included — has the same
extracted contents after the second run as after the first, because
directory creation tolerates an existing directory and re-extraction
overwrites colliding files. -/
theorem attempt_container_decryption_idempotent (p : String) (entries : DirContents)
    (fs : Fs) :
    (offloaded_attempt_container_decryption p (some entries) fs).1 = Except.ok ()
    ∧ (offloaded_attempt_container_decryption p (some entries)
        (offloaded_attempt_container_decryption p (some entries) fs).2).1 = Except.ok ()
    ∧ (fs_lookup (target_directory_for p)
        (offloaded_attempt_container_decryption p (some entries) fs).2).isSome = true
    ∧ ∀ d name,
        (fs_lookup d (offloaded_attempt_container_decryption p (some entries)
            ((offloaded_attempt_container_decryption p (some entries) fs).2)).2).isSome
          = (fs_lookup d
              (offloaded_attempt_container_decryption p (some entries) fs).2).isSome
        ∧ (fs_lookup d (offloaded_attempt_container_decryption p (some entries)
            ((offloaded_attempt_container_decryption p (some entries) fs).2)).2).bind
              (files_lookup name)
          = (fs_lookup d (offloaded_attempt_container_decryption p (some entries) fs).2).bind
              (files_lookup name) := by
  have hr1 : (offloaded_attempt_container_decryption p (some entries) fs).2
      = fs_update (target_directory_for p) (extractall entries)
          (mkdir_exist_ok (target_directory_for p) fs) := rfl
  have h1 : (fs_lookup (target_directory_for p)
      (offloaded_attempt_container_decryption p (some entries) fs).2).isSome = true := by
    rw [hr1, fs_lookup_update_self]
    simp [mkdir_lookup_self]
  have hr2 : (offloaded_attempt_container_decryption p (some entries)
      ((offloaded_attempt_container_decryption p (some entries) fs).2)).2
      = fs_update (target_directory_for p) (extractall entries)
          (offloaded_attempt_container_decryption p (some entries) fs).2 := by
    show fs_update (target_directory_for p) (extractall entries)
        (mkdir_exist_ok (target_directory_for p)
          (offloaded_attempt_container_decryption p (some entries) fs).2) = _
    rw [mkdir_eq_of_isSome _ _ h1]
  refine ⟨rfl, rfl, h1, ?_⟩
  intro d name
  by_cases hd : d = target_directory_for p
  · subst hd
    rw [hr2, fs_lookup_update_self]
    obtain ⟨c0, hc0⟩ : ∃ c0, fs_lookup (target_directory_for p)
        (mkdir_exist_ok (target_directory_for p) fs) = some c0 := by
      cases hl : fs_lookup (target_directory_for p) (mkdir_exist_ok (target_directory_for p) fs)
      · have hms := mkdir_lookup_self (target_directory_for p) fs
        rw [hl] at hms
        simp at hms
      · exact ⟨_, rfl⟩
    have hc1 : fs_lookup (target_directory_for p)
        (offloaded_attempt_container_decryption p (some entries) fs).2
        = some (extractall entries c0) := by
      rw [hr1, fs_lookup_update_self, hc0]
      rfl
    rw [hc1]
    simp [extractall_idempotent_lookup]
  · rw [hr2, fs_lookup_update_other d (target_directory_for p) (extractall entries) _ hd]
    exact ⟨rfl, rfl⟩

/-! ## Trace lemmas: the status-change flag between submission and completion -/

theorem run_cons (s : BackgroundServer) (e : Ev) (rest : List Ev) :
    run s (e :: rest) = run (handle_event e s) rest := rfl

theorem run_task_keeps_flag_decrypt (p : String) (a : Option DirContents)
    (s : BackgroundServer) :
    (run_task (SrvTask.decrypt p a) s).status_change_in_progress =
      s.status_change_in_progress := by
  cases a <;>
    simp [run_task, run_task_outcome, offloaded_attempt_container_decryption_srv,
      offloaded_attempt_container_decryption, safe_catch_unhandled_exception]

theorem handle_event_keeps_flag (e : Ev) (s : BackgroundServer)
    (he : completes_start_stop s e = false)
    (h : s.status_change_in_progress = true) :
    (handle_event e s).status_change_in_progress = true := by
  cases e with
  | workerStep =>
    show (worker_step s).status_change_in_progress = true
    cases hq : s.queue with
    | nil => simpa [worker_step, hq] using h
    | cons t rest =>
      cases t with
      | start o => simp [completes_start_stop, hq] at he
      | stop b => simp [completes_start_stop, hq] at he
      | decrypt p a =>
        simp only [worker_step, hq]
        rw [run_task_keeps_flag_decrypt]
        exact h
      | switchDaemonize v =>
        simpa [worker_step, hq, run_task, run_task_outcome] using h
  | reqStopServer ok tm => simp [completes_start_stop] at he
  | reqPing =>
    show (if s.serving = true then ping s else s).status_change_in_progress = true
    split <;> simpa [ping, send_message] using h
  | reqStartRecording o =>
    show (if s.serving = true then start_recording o s else s).status_change_in_progress = true
    split <;> simp [start_recording, h]
  | reqStopRecording b =>
    show (if s.serving = true then stop_recording b s else s).status_change_in_progress = true
    split <;> simp [stop_recording, h]
  | reqBroadcastRecordingState =>
    show (if s.serving = true
        then broadcast_recording_state s else s).status_change_in_progress = true
    split <;> simpa [broadcast_recording_state, broadcast_value, send_message] using h
  | reqAttemptContainerDecryption p a =>
    show (if s.serving = true
        then attempt_container_decryption p a s else s).status_change_in_progress = true
    split <;> simpa [attempt_container_decryption] using h
  | reqSwitchDaemonize v =>
    show (if s.serving = true
        then switch_daemonize_service v s else s).status_change_in_progress = true
    split <;> simpa [switch_daemonize_service] using h

theorem run_keeps_flag (tr : List Ev) (s : BackgroundServer)
    (htr : no_start_stop_completion s tr = true)
    (h : s.status_change_in_progress = true) :
    (run s tr).status_change_in_progress = true := by
  induction tr generalizing s with
  | nil => exact h
  | cons e rest ih =>
    rw [run_cons]
    simp only [no_start_stop_completion, Bool.and_eq_true, Bool.not_eq_true'] at htr
    exact ih (handle_event e s) htr.2 (handle_event_keeps_flag e s htr.1 h)

/-- C1 (as stated by the spec) is refuted by this concrete scenario: a stop
request and then a start request are submitted; the worker runs the startup
daemonize task and then the stop task, whose `finally` block clears
`_status_change_in_progress`; a broadcast request arriving now sends the
boolean `false` on `/receive_recording_state` even though the start task is
still queued. -/
theorem broadcast_bool_while_task_queued_counterexample :
    (run (initial_server false false o_ok)
      [Ev.reqStopRecording true, Ev.reqStartRecording o_ok,
       Ev.workerStep, Ev.workerStep]).queue = [SrvTask.start o_ok]
    ∧ (handle_event Ev.reqBroadcastRecordingState
        (run (initial_server false false o_ok)
          [Ev.reqStopRecording true, Ev.reqStartRecording o_ok,
           Ev.workerStep, Ev.workerStep])).log =
      (run (initial_server false false o_ok)
        [Ev.reqStopRecording true, Ev.reqStartRecording o_ok,
         Ev.workerStep, Ev.workerStep]).log ++
        [Act.sent "/receive_recording_state" [Val.boolVal false]] := by
  constructor <;> rfl

/-- C1 (amended): the marker guarantee holds from the submission of a
start/stop task until the worker next completes a start/stop task (and no
shutdown wait, which runs queued tasks, intervenes); worker completions of
other queued tasks (daemonize, decryption) leave the window open. In that
whole window `_status_change_in_progress` stays true, so
`broadcast_recording_state` computes the empty-string marker, never a
boolean. Once any start/stop task completes, its `finally` block clears the
flag, so a boolean may be sent even while a later-submitted start/stop task
is still queued. -/
theorem broadcast_marker_until_first_completion (s : BackgroundServer)
    (o : StartOracle) (b : Bool) (tr : List Ev)
    (hserv : s.serving = true) :
    (no_start_stop_completion (handle_event (Ev.reqStartRecording o) s) tr = true →
      broadcast_value (run (handle_event (Ev.reqStartRecording o) s) tr) = Val.strVal "")
    ∧ (no_start_stop_completion (handle_event (Ev.reqStopRecording b) s) tr = true →
      broadcast_value (run (handle_event (Ev.reqStopRecording b) s) tr) = Val.strVal "") := by
  have h1 : (handle_event (Ev.reqStartRecording o) s).status_change_in_progress = true := by
    simp [handle_event, dispatch, start_recording, hserv]
  have h2 : (handle_event (Ev.reqStopRecording b) s).status_change_in_progress = true := by
    simp [handle_event, dispatch, stop_recording, hserv]
  constructor <;> intro htr <;>
    simp [broadcast_value, run_keeps_flag tr _ htr, h1, h2]

/-! ## Frame lemmas: fields and actions that offloaded tasks never touch -/

theorem count_set_termination_append (l1 l2 : List Act) :
    count_set_termination (l1 ++ l2) =
      count_set_termination l1 + count_set_termination l2 := by
  simp [count_set_termination, List.countP_append]

theorem count_set_termination_sent (l : List Act) (a : String) (v : List Val) :
    count_set_termination (l ++ [Act.sent a v]) = count_set_termination l := by
  simp [count_set_termination, List.countP_append, List.countP_cons, is_set_termination]

set_option maxHeartbeats 1000000 in
theorem run_task_outcome_frame (t : SrvTask) (s : BackgroundServer) :
    (run_task_outcome t s).2.termination_event = s.termination_event
    ∧ (run_task_outcome t s).2.serving = s.serving
    ∧ (run_task_outcome t s).2.toolchain_overwrites = s.toolchain_overwrites
    ∧ count_set_termination (run_task_outcome t s).2.log = count_set_termination s.log := by
  cases t with
  | start o =>
    obtain ⟨eok, fex, pok, braise, bprod, sok⟩ := o
    cases heq : s.recording_toolchain with
    | none =>
      cases eok <;> cases fex <;> cases pok <;> cases braise <;> cases bprod <;> cases sok <;>
        simp_all [run_task_outcome, offloaded_start_recording, offloaded_start_recording_try,
          load_config, assign_toolchain, safe_catch_unhandled_exception,
          broadcast_recording_state, broadcast_value, send_message, is_recording,
          count_set_termination, List.countP_append, List.countP_cons, is_set_termination]
    | some tc =>
      obtain ⟨trun⟩ := tc
      cases eok <;> cases trun <;> cases sok <;>
        simp_all [run_task_outcome, offloaded_start_recording, offloaded_start_recording_try,
          load_config, assign_toolchain, safe_catch_unhandled_exception,
          broadcast_recording_state, broadcast_value, send_message, is_recording,
          count_set_termination, List.countP_append, List.countP_cons, is_set_termination]
  | stop ok =>
    cases heq : s.recording_toolchain with
    | none =>
      cases ok <;>
        simp_all [run_task_outcome, offloaded_stop_recording, offloaded_stop_recording_try,
          safe_catch_unhandled_exception, broadcast_recording_state, broadcast_value,
          send_message, is_recording, count_set_termination, List.countP_append,
          List.countP_cons, is_set_termination]
    | some tc =>
      obtain ⟨trun⟩ := tc
      cases ok <;> cases trun <;>
        simp_all [run_task_outcome, offloaded_stop_recording, offloaded_stop_recording_try,
          safe_catch_unhandled_exception, broadcast_recording_state, broadcast_value,
          send_message, is_recording, count_set_termination, List.countP_append,
          List.countP_cons, is_set_termination]
  | decrypt p a =>
    cases a <;>
      simp [run_task_outcome, offloaded_attempt_container_decryption_srv,
        offloaded_attempt_container_decryption, safe_catch_unhandled_exception,
        count_set_termination, List.countP_append, List.countP_cons, is_set_termination]
  | switchDaemonize v =>
    simp [run_task_outcome]

theorem run_tasks_frame (ts : List SrvTask) (s : BackgroundServer) (oc : TaskOutcome) :
    (run_tasks ts s oc).2.termination_event = s.termination_event
    ∧ (run_tasks ts s oc).2.serving = s.serving
    ∧ (run_tasks ts s oc).2.toolchain_overwrites = s.toolchain_overwrites
    ∧ count_set_termination (run_tasks ts s oc).2.log = count_set_termination s.log := by
  induction ts generalizing s oc with
  | nil => exact ⟨rfl, rfl, rfl, rfl⟩
  | cons t rest ih =>
    have h1 := run_task_outcome_frame t s
    have h2 := ih (run_task_outcome t s).2 (run_task_outcome t s).1
    exact ⟨h2.1.trans h1.1, h2.2.1.trans h1.2.1, h2.2.2.1.trans h1.2.2.1,
      h2.2.2.2.trans h1.2.2.2⟩

theorem run_first_frame (n : Nat) (s : BackgroundServer) :
    (run_first n s).termination_event = s.termination_event
    ∧ (run_first n s).serving = s.serving
    ∧ (run_first n s).toolchain_overwrites = s.toolchain_overwrites
    ∧ count_set_termination (run_first n s).log = count_set_termination s.log := by
  induction n generalizing s with
  | zero => exact ⟨rfl, rfl, rfl, rfl⟩
  | succ k ih =>
    cases hq : s.queue with
    | nil => simp [run_first, hq]
    | cons t rest =>
      have h1 := run_task_outcome_frame t { s with queue := rest }
      have h2 := ih (run_task t { s with queue := rest })
      have hu : run_first (k + 1) s = run_first k (run_task t { s with queue := rest }) := by
        simp [run_first, hq]
      rw [hu]
      exact ⟨h2.1.trans h1.1, h2.2.1.trans h1.2.1, h2.2.2.1.trans h1.2.2.1,
        h2.2.2.2.trans h1.2.2.2⟩

/-! ## The one-shot termination signal -/

theorem termination_once_of_frame {s s1 : BackgroundServer}
    (h : termination_once s)
    (ht : s1.termination_event = s.termination_event)
    (hv : s1.serving = s.serving)
    (hc : count_set_termination s1.log = count_set_termination s.log) :
    termination_once s1 := by
  obtain ⟨h1, h2⟩ := h
  constructor
  · rw [hc, ht]
    exact h1
  · intro hsv
    rw [ht]
    exact h2 (hv ▸ hsv)

theorem termination_once_finish_shutdown {s : BackgroundServer}
    (h : termination_once s) (hv : s.serving = true) :
    termination_once (finish_shutdown s) := by
  obtain ⟨h1, h2⟩ := h
  have hte : s.termination_event = false := h2 hv
  constructor
  · have hc0 : count_set_termination s.log = 0 := by
      rw [h1, hte]
      rfl
    show count_set_termination ((s.log ++ [Act.stopServing]) ++ [Act.setTermination]) = _
    rw [count_set_termination_append, count_set_termination_append, hc0]
    rfl
  · intro hsv
    simp [finish_shutdown] at hsv

theorem handle_event_termination_once (e : Ev) (s : BackgroundServer)
    (h : termination_once s) : termination_once (handle_event e s) := by
  cases e with
  | workerStep =>
    show termination_once (worker_step s)
    cases hq : s.queue with
    | nil => simpa [worker_step, hq] using h
    | cons t rest =>
      have hw : worker_step s = (run_task_outcome t { s with queue := rest }).2 := by
        simp [worker_step, hq, run_task]
      rw [hw]
      have hf := run_task_outcome_frame t { s with queue := rest }
      exact termination_once_of_frame h hf.1 hf.2.1 hf.2.2.2
  | reqPing =>
    show termination_once (if s.serving = true then ping s else s)
    split
    · exact termination_once_of_frame h rfl rfl (count_set_termination_sent s.log _ _)
    · exact h
  | reqStartRecording o =>
    show termination_once (if s.serving = true then start_recording o s else s)
    split
    · exact termination_once_of_frame h rfl rfl rfl
    · exact h
  | reqStopRecording b =>
    show termination_once (if s.serving = true then stop_recording b s else s)
    split
    · exact termination_once_of_frame h rfl rfl rfl
    · exact h
  | reqBroadcastRecordingState =>
    show termination_once (if s.serving = true then broadcast_recording_state s else s)
    split
    · exact termination_once_of_frame h rfl rfl (count_set_termination_sent s.log _ _)
    · exact h
  | reqAttemptContainerDecryption p a =>
    show termination_once (if s.serving = true then attempt_container_decryption p a s else s)
    split
    · exact termination_once_of_frame h rfl rfl rfl
    · exact h
  | reqSwitchDaemonize v =>
    show termination_once (if s.serving = true then switch_daemonize_service v s else s)
    split
    · exact termination_once_of_frame h rfl rfl rfl
    · exact h
  | reqStopServer ok tm =>
    show termination_once (if s.serving = true then stop_server ok tm s else s)
    split
    case isFalse => exact h
    case isTrue hv =>
      unfold stop_server
      split
      case isTrue hr =>
        cases tm with
        | none =>
          show termination_once
            (match (run_tasks (stop_recording ok s).queue
                { stop_recording ok s with queue := [] } TaskOutcome.success).1 with
              | TaskOutcome.success => finish_shutdown (run_tasks (stop_recording ok s).queue
                  { stop_recording ok s with queue := [] } TaskOutcome.success).2
              | TaskOutcome.failure => (run_tasks (stop_recording ok s).queue
                  { stop_recording ok s with queue := [] } TaskOutcome.success).2)
          have hfr := run_tasks_frame (stop_recording ok s).queue
            { stop_recording ok s with queue := [] } TaskOutcome.success
          have hto : termination_once (run_tasks (stop_recording ok s).queue
              { stop_recording ok s with queue := [] } TaskOutcome.success).2 :=
            termination_once_of_frame (termination_once_of_frame h rfl rfl rfl)
              hfr.1 hfr.2.1 hfr.2.2.2
          split
          · apply termination_once_finish_shutdown hto
            rw [hfr.2.1]
            exact hv
          · exact hto
        | some n =>
          show termination_once (run_first n (stop_recording ok s))
          have hfr := run_first_frame n (stop_recording ok s)
          exact termination_once_of_frame (termination_once_of_frame h rfl rfl rfl)
            hfr.1 hfr.2.1 hfr.2.2.2
      case isFalse hr =>
        exact termination_once_finish_shutdown h hv

theorem run_termination_once (tr : List Ev) (s : BackgroundServer)
    (h : termination_once s) : termination_once (run s tr) := by
  induction tr generalizing s with
  | nil => exact h
  | cons e rest ih =>
    rw [run_cons]
    exact ih (handle_event e s) (handle_event_termination_once e s h)

/-! ## Ghost-counter preservation: no second toolchain instance is created -/

theorem handle_event_overwrites (e : Ev) (s : BackgroundServer) :
    (handle_event e s).toolchain_overwrites = s.toolchain_overwrites := by
  cases e with
  | workerStep =>
    show (worker_step s).toolchain_overwrites = s.toolchain_overwrites
    cases hq : s.queue with
    | nil => simp [worker_step, hq]
    | cons t rest =>
      have hw : worker_step s = (run_task_outcome t { s with queue := rest }).2 := by
        simp [worker_step, hq, run_task]
      rw [hw]
      exact (run_task_outcome_frame t { s with queue := rest }).2.2.1
  | reqPing =>
    show (if s.serving = true then ping s else s).toolchain_overwrites = _
    split <;> rfl
  | reqStartRecording o =>
    show (if s.serving = true then start_recording o s else s).toolchain_overwrites = _
    split <;> rfl
  | reqStopRecording b =>
    show (if s.serving = true then stop_recording b s else s).toolchain_overwrites = _
    split <;> rfl
  | reqBroadcastRecordingState =>
    show (if s.serving = true then broadcast_recording_state s else s).toolchain_overwrites = _
    split <;> rfl
  | reqAttemptContainerDecryption p a =>
    show (if s.serving = true
        then attempt_container_decryption p a s else s).toolchain_overwrites = _
    split <;> rfl
  | reqSwitchDaemonize v =>
    show (if s.serving = true then switch_daemonize_service v s else s).toolchain_overwrites = _
    split <;> rfl
  | reqStopServer ok tm =>
    show (if s.serving = true then stop_server ok tm s else s).toolchain_overwrites = _
    split
    case isFalse => rfl
    case isTrue hv =>
      unfold stop_server
      split
      case isTrue hr =>
        cases tm with
        | none =>
          show (match (run_tasks (stop_recording ok s).queue
                { stop_recording ok s with queue := [] } TaskOutcome.success).1 with
              | TaskOutcome.success => finish_shutdown (run_tasks (stop_recording ok s).queue
                  { stop_recording ok s with queue := [] } TaskOutcome.success).2
              | TaskOutcome.failure => (run_tasks (stop_recording ok s).queue
                  { stop_recording ok s with queue := [] }
                  TaskOutcome.success).2).toolchain_overwrites = _
          have hfr := run_tasks_frame (stop_recording ok s).queue
            { stop_recording ok s with queue := [] } TaskOutcome.success
          split
          · exact hfr.2.2.1
          · exact hfr.2.2.1
        | some n =>
          show (run_first n (stop_recording ok s)).toolchain_overwrites = _
          exact (run_first_frame n (stop_recording ok s)).2.2.1
      case isFalse hr => rfl

theorem run_overwrites (tr : List Ev) (s : BackgroundServer) :
    (run s tr).toolchain_overwrites = s.toolchain_overwrites := by
  induction tr generalizing s with
  | nil => rfl
  | cons e rest ih =>
    rw [run_cons]
    exact (ih (handle_event e s)).trans (handle_event_overwrites e s)

theorem broadcast_marker_until_first_completion_witness :
    broadcast_value (run (handle_event (Ev.reqStartRecording o_ok)
      (initial_server false false o_ok))
      [Ev.workerStep, Ev.reqBroadcastRecordingState]) = Val.strVal ""
    ∧ broadcast_value (run (handle_event (Ev.reqStopRecording true)
      (initial_server false false o_ok))
      [Ev.workerStep, Ev.reqBroadcastRecordingState]) = Val.strVal "" :=
  ⟨(broadcast_marker_until_first_completion (initial_server false false o_ok) o_ok true
      [Ev.workerStep, Ev.reqBroadcastRecordingState] rfl).1 (by decide),
   (broadcast_marker_until_first_completion (initial_server false false o_ok) o_ok true
      [Ev.workerStep, Ev.reqBroadcastRecordingState] rfl).2 (by decide)⟩

/-- C2: graceful shutdown. (1) `stop_server` called while recording (queue
otherwise drained, stop succeeding within the timeout) stops the recording
— the toolchain stop and the completion broadcast appear in the log —
strictly before the transport stops serving, which precedes the setting of
the termination signal. (2) If the bounded wait times out, the swallowed
`TimeoutError` aborts the handler: the termination signal is not set (so it
is set only after the stop task completes). (3) In every trace from service
start-up the signal is set at most once and never while still serving.
(4) `join()` unblocks only after the signal has been set (exactly once). -/
theorem stop_server_graceful_shutdown :
    (∀ s : BackgroundServer, is_recording s = true → s.serving = true → s.queue = [] →
      (stop_server true none s).log = s.log ++
        [Act.toolchainStopped, Act.sent "/receive_recording_state" [Val.boolVal false],
         Act.stopServing, Act.setTermination]
      ∧ (stop_server true none s).termination_event = true
      ∧ (stop_server true none s).serving = false)
    ∧ (∀ (s : BackgroundServer) (b : Bool) (n : Nat), is_recording s = true →
      (stop_server b (some n) s).termination_event = s.termination_event
      ∧ count_set_termination (stop_server b (some n) s).log =
          count_set_termination s.log)
    ∧ (∀ (dz wip : Bool) (o : StartOracle) (tr : List Ev),
      termination_once (run (initial_server dz wip o) tr))
    ∧ (∀ (dz wip : Bool) (o : StartOracle) (tr : List Ev),
      join_unblocked (run (initial_server dz wip o) tr) = true →
      count_set_termination (run (initial_server dz wip o) tr).log = 1) := by
  refine ⟨?_, ?_, ?_, ?_⟩
  · intro s hr hv hq
    obtain ⟨t, ht, htr⟩ := (is_recording_eq_true s).1 hr
    refine ⟨?_, ?_, ?_⟩ <;>
      simp [stop_server, stop_recording, hq, run_tasks, run_task_outcome,
        offloaded_stop_recording, offloaded_stop_recording_try,
        safe_catch_unhandled_exception, broadcast_recording_state, broadcast_value,
        send_message, is_recording, ht, htr, finish_shutdown]
  · intro s b n hr
    have h1 := run_first_frame n (stop_recording b s)
    constructor
    · show (stop_server b (some n) s).termination_event = s.termination_event
      unfold stop_server
      rw [if_pos hr]
      exact h1.1
    · show count_set_termination (stop_server b (some n) s).log = _
      unfold stop_server
      rw [if_pos hr]
      exact h1.2.2.2
  · intro dz wip o tr
    exact run_termination_once tr _ ⟨rfl, fun _ => rfl⟩
  · intro dz wip o tr hj
    have h3 := run_termination_once tr (initial_server dz wip o) ⟨rfl, fun _ => rfl⟩
    rw [h3.1]
    simp only [join_unblocked] at hj
    rw [hj]
    rfl

theorem stop_server_graceful_shutdown_witness :
    (stop_server true none recording_server).log =
      [Act.toolchainStopped, Act.sent "/receive_recording_state" [Val.boolVal false],
       Act.stopServing, Act.setTermination]
    ∧ (stop_server true none recording_server).termination_event = true
    ∧ (stop_server true (some 0) recording_server).termination_event =
        recording_server.termination_event
    ∧ count_set_termination
        (run (initial_server false false o_ok) [Ev.reqStopServer true none]).log = 1 := by
  have h := stop_server_graceful_shutdown
  have h1 := h.1 recording_server (by decide) rfl rfl
  refine ⟨?_, h1.2.1, (h.2.1 recording_server true 0 (by decide)).1,
    h.2.2.2 false false o_ok [Ev.reqStopServer true none] (by decide)⟩
  simpa using h1.1

/-- C3: for every sequence of requests, at most one `RecordingToolchain`
instance exists at any time: the ghost counter of assignments that would
overwrite a live toolchain with a newly built one stays at zero in every
reachable state — `build_recording_toolchain` is only ever invoked under
the `not self._recording_toolchain` guard. Moreover, in the concrete
double-start scenario (a second start request arriving before the first
start task runs), exactly one toolchain is built and it ends up running:
the second offloaded task re-checks `is_recording` and returns as a no-op. -/
theorem at_most_one_recording_toolchain :
    (∀ (dz wip : Bool) (o : StartOracle) (tr : List Ev),
      (run (initial_server dz wip o) tr).toolchain_overwrites = 0)
    ∧ ((run (initial_server false false o_ok)
        [Ev.reqStartRecording o_ok, Ev.reqStartRecording o_ok,
         Ev.workerStep, Ev.workerStep, Ev.workerStep]).toolchain_builds = 1
      ∧ (run (initial_server false false o_ok)
          [Ev.reqStartRecording o_ok, Ev.reqStartRecording o_ok,
           Ev.workerStep, Ev.workerStep, Ev.workerStep]).recording_toolchain =
        some { is_running := true }) := by
  refine ⟨?_, by decide, by decide⟩
  intro dz wip o tr
  rw [run_overwrites]
  rfl

end WAClient
